import Mathlib

/-!
# Verification of the measure-extraction and coverage-ranking core

Shallow embedding of the `get-sonar-feedback` tool's in-scope logic:

* `parseMeasureNumber` (measure-utils) — normalizing a "measure" record to a
  number, preferring the first period snapshot over the absolute value;
* `extractCoverageFileDetails` / `buildCoverageDetailsUrl` helpers
  (coverage-utils) — ranking files by uncovered-line count;
* the error path of `fetchJson` / `toJsonError`, and the control flow of
  `runPrAnalysis` (index) — the report builder's failure policy.

Machine numbers produced by JavaScript's `Number(string)` are modelled as
`Option Rat` (`none` for `NaN`); the measure values this program consumes are
decimal numerals, and the model `jsStrToNumber` covers exactly the
decimal-numeral fragment of `Number` (optional sign, integer and fraction
digits, surrounding whitespace, the empty string converting to `0`).
-/

/-- One entry of a measure's `periods` array; the source type has the single
field `value : string`. -/
structure Period where
  value : String
deriving Repr, DecidableEq

/-- A measure record (`Measure` in measure-utils / `ComponentMeasure` in
coverage-utils): a metric name, an optional absolute `value`, and an optional
array of period snapshots. -/
structure Measure where
  metric : String
  value : Option String := none
  periods : Option (List Period) := none
deriving Repr, DecidableEq

/-- Numeric value of a decimal digit character. -/
def digitVal (c : Char) : Nat := c.toNat - '0'.toNat

/-- Natural number denoted by a list of decimal digit characters. -/
def digitsToNat (cs : List Char) : Nat :=
  cs.foldl (fun n c => 10 * n + digitVal c) 0

/-- Unsigned decimal numeral as accepted by JavaScript `Number`:
digits, optionally a decimal point with further digits, with at least one
digit overall (`"1"`, `"1."`, `".5"`, `"85.5"`; not `"."`, not `"abc"`).
Returns `none` where `Number` would yield `NaN`. -/
def parseUnsignedDecimal (cs : List Char) : Option Rat :=
  let intPart := cs.takeWhile (·.isDigit)
  let rest := cs.dropWhile (·.isDigit)
  match rest with
  | [] => if intPart.isEmpty then none else some (digitsToNat intPart)
  | '.' :: frac =>
      if frac.all (·.isDigit) && !(intPart.isEmpty && frac.isEmpty) then
        some ((digitsToNat intPart : Rat) + (digitsToNat frac : Rat) / (10 : Rat) ^ frac.length)
      else none
  | _ => none

/-- Strip leading and trailing whitespace, as `Number` does before parsing. -/
def trimWhitespace (cs : List Char) : List Char :=
  ((cs.dropWhile (·.isWhitespace)).reverse.dropWhile (·.isWhitespace)).reverse

/-- Model of JavaScript `Number(s)` for a string `s`, restricted to the
decimal-numeral fragment this program's data exercises: surrounding
whitespace is trimmed, the empty (or all-whitespace) string converts to `0`,
an optional sign precedes an unsigned decimal numeral, and every other
string yields `NaN`, modelled as `none`. -/
def jsStrToNumber (s : String) : Option Rat :=
  match trimWhitespace s.toList with
  | [] => some 0
  | '-' :: cs => (parseUnsignedDecimal cs).map (fun q => -q)
  | '+' :: cs => parseUnsignedDecimal cs
  | cs => parseUnsignedDecimal cs

/-- The raw string selected by `measure.periods?.[0]?.value ?? measure.value`:
the first period's value when the periods array is present and non-empty,
otherwise the absolute value. -/
def selectedRawValue (m : Measure) : Option String :=
  match m.periods with
  | some (p :: _) => some p.value
  | _ => m.value

/-- `parseMeasureNumber(measures, metric)` from measure-utils:
`undefined` measures → `undefined`; otherwise find the first measure whose
`metric` equals the key, select its raw value (first period preferred over
absolute value), and convert with `Number`, mapping `NaN` to `undefined`. -/
def parseMeasureNumber (measures : Option (List Measure)) (metric : String) : Option Rat :=
  match measures with
  | none => none
  | some ms =>
    match ms.find? (fun m => m.metric == metric) with
    | none => none
    | some measure =>
      match selectedRawValue measure with
      | none => none
      | some rawValue => jsStrToNumber rawValue

/-- `ComponentTreeComponent` from coverage-utils: a fully-qualified key, an
optional relative path, an optional measure list. -/
structure ComponentTreeComponent where
  key : String
  path : Option String := none
  measures : Option (List Measure) := none
deriving Repr, DecidableEq

/-- `ComponentTreeResponse` from coverage-utils. -/
structure ComponentTreeResponse where
  components : Option (List ComponentTreeComponent) := none
deriving Repr, DecidableEq

/-- `CoverageFileDetail` from coverage-utils: `linesToCover` and `coverage`
are optional and stay absent when the measure is missing. -/
structure CoverageFileDetail where
  path : String
  uncovered : Rat
  linesToCover : Option Rat := none
  coverage : Option Rat := none
deriving Repr, DecidableEq

/-- `List Char` core of JavaScript `String.prototype.replace` with a string
pattern: replace the FIRST occurrence of `pat` (anywhere in the string, an
empty pattern matching at position 0) by `repl`; a string without an
occurrence is returned unchanged. -/
def listReplaceFirst (pat repl : List Char) : List Char → List Char
  | [] => if pat.isEmpty then repl else []
  | c :: cs =>
      if pat.isPrefixOf (c :: cs) then repl ++ (c :: cs).drop pat.length
      else c :: listReplaceFirst pat repl cs

/-- JavaScript `s.replace(pat, repl)` for a string pattern: replaces only the
first occurrence, wherever it sits in `s`. -/
def jsReplaceFirst (s pat repl : String) : String :=
  ⟨listReplaceFirst pat.toList repl.toList s.toList⟩

/-- JavaScript `a || b` where `a` is an optional string: `undefined` and the
empty string are falsy, so both fall through to `b`. -/
def jsStringOr (a : Option String) (b : String) : String :=
  match a with
  | some s => if s.isEmpty then b else s
  | none => b

/-- Body of the `.map` in `extractCoverageFileDetails`: default the measure
list to `[]`, extract `new_uncovered_lines` defaulting absence to `0`,
extract `new_lines_to_cover` and `new_coverage` without defaulting, and
derive the path from `component.path || component.key.replace(projectKey + ":", "")`. -/
def mkCoverageFileDetail (projectKey : String) (component : ComponentTreeComponent) :
    CoverageFileDetail :=
  let measures := component.measures.getD []
  let uncovered := (parseMeasureNumber (some measures) "new_uncovered_lines").getD 0
  let linesToCover := parseMeasureNumber (some measures) "new_lines_to_cover"
  let coverage := parseMeasureNumber (some measures) "new_coverage"
  let path := jsStringOr component.path (jsReplaceFirst component.key (projectKey ++ ":") "")
  { path := path, uncovered := uncovered, linesToCover := linesToCover, coverage := coverage }

/-- The comparator `(a, b) => b.uncovered - a.uncovered` as the Boolean order
"`a` may come before `b`": descending by uncovered count. `Array.prototype.sort`
is stable (ES2019), so the sort is modelled by the stable `List.mergeSort`. -/
def uncoveredDescLe (a b : CoverageFileDetail) : Bool :=
  decide (b.uncovered ≤ a.uncovered)

/-- Map-and-filter stage of `extractCoverageFileDetails`: every component
becomes a `CoverageFileDetail`, and only files with `uncovered > 0` are kept. -/
def coverageCandidates (response : ComponentTreeResponse) (projectKey : String) :
    List CoverageFileDetail :=
  ((response.components.getD []).map (mkCoverageFileDetail projectKey)).filter
    (fun file => decide ((0 : Rat) < file.uncovered))

/-- `extractCoverageFileDetails(response, projectKey)` from coverage-utils:
map every component to a `CoverageFileDetail`, keep those with
`uncovered > 0`, and sort descending by uncovered count. -/
def extractCoverageFileDetails (response : ComponentTreeResponse) (projectKey : String) :
    List CoverageFileDetail :=
  (coverageCandidates response projectKey).mergeSort uncoveredDescLe

/-! ## JSON values and a model of `JSON.parse`

`fetchJson` parses the error-response body best-effort with `JSON.parse`.
The model covers the JSON fragment this program's error bodies exercise:
`null`, Booleans, decimal numbers without exponents, strings without escape
sequences, arrays and objects; anything outside that fragment fails, as
`JSON.parse` throwing is modelled by `none`. -/

/-- JSON values, as produced by `JSON.parse`. -/
inductive Json where
  | null
  | bool (b : Bool)
  | num (q : Rat)
  | str (s : String)
  | arr (elems : List Json)
  | obj (fields : List (String × Json))
deriving Repr

/-- Skip JSON whitespace. -/
def skipWs (cs : List Char) : List Char := cs.dropWhile (·.isWhitespace)

/-- Parse the remainder of a JSON string literal after the opening quote;
escape sequences are outside the modelled fragment. -/
def parseJsonStringBody : List Char → Option (String × List Char)
  | [] => none
  | '"' :: rest => some ("", rest)
  | '\\' :: _ => none
  | c :: rest =>
      match parseJsonStringBody rest with
      | some (s, r) => some (⟨c :: s.toList⟩, r)
      | none => none

/-- Parse a JSON number: optional minus, digits, optional fraction digits. -/
def parseJsonNumber (cs : List Char) : Option (Json × List Char) :=
  let signed := match cs with
    | '-' :: rest => (true, rest)
    | _ => (false, cs)
  let neg := signed.fst
  let cs1 := signed.snd
  let intPart := cs1.takeWhile (·.isDigit)
  let rest1 := cs1.dropWhile (·.isDigit)
  if intPart.isEmpty then none
  else
    match rest1 with
    | '.' :: rest2 =>
        let frac := rest2.takeWhile (·.isDigit)
        let rest3 := rest2.dropWhile (·.isDigit)
        if frac.isEmpty then none
        else
          let q := (digitsToNat intPart : Rat) + (digitsToNat frac : Rat) / (10 : Rat) ^ frac.length
          some (.num (if neg then -q else q), rest3)
    | _ => some (.num (if neg then -(digitsToNat intPart : Rat) else (digitsToNat intPart : Rat)), rest1)

mutual

/-- Parse one JSON value, fuel-bounded. -/
def parseJsonVal : Nat → List Char → Option (Json × List Char)
  | 0, _ => none
  | fuel + 1, cs =>
    match skipWs cs with
    | 'n' :: 'u' :: 'l' :: 'l' :: rest => some (.null, rest)
    | 't' :: 'r' :: 'u' :: 'e' :: rest => some (.bool true, rest)
    | 'f' :: 'a' :: 'l' :: 's' :: 'e' :: rest => some (.bool false, rest)
    | '"' :: rest =>
        match parseJsonStringBody rest with
        | some (s, r) => some (.str s, r)
        | none => none
    | '[' :: rest =>
        match skipWs rest with
        | ']' :: r => some (.arr [], r)
        | _ =>
          match parseJsonElems fuel rest with
          | some (es, r) => some (.arr es, r)
          | none => none
    | '\x7b' :: rest =>
        match skipWs rest with
        | '\x7d' :: r => some (.obj [], r)
        | _ =>
          match parseJsonFields fuel rest with
          | some (fs, r) => some (.obj fs, r)
          | none => none
    | other => parseJsonNumber other

/-- Parse the elements of a non-empty JSON array, fuel-bounded. -/
def parseJsonElems : Nat → List Char → Option (List Json × List Char)
  | 0, _ => none
  | fuel + 1, cs =>
    match parseJsonVal fuel cs with
    | none => none
    | some (v, rest) =>
      match skipWs rest with
      | ',' :: r =>
          match parseJsonElems fuel r with
          | some (vs, r2) => some (v :: vs, r2)
          | none => none
      | ']' :: r => some ([v], r)
      | _ => none

/-- Parse the fields of a non-empty JSON object, fuel-bounded. -/
def parseJsonFields : Nat → List Char → Option (List (String × Json) × List Char)
  | 0, _ => none
  | fuel + 1, cs =>
    match skipWs cs with
    | '"' :: rest =>
      match parseJsonStringBody rest with
      | none => none
      | some (k, r1) =>
        match skipWs r1 with
        | ':' :: r2 =>
          match parseJsonVal fuel r2 with
          | none => none
          | some (v, r3) =>
            match skipWs r3 with
            | ',' :: r4 =>
                match parseJsonFields fuel r4 with
                | some (fs, r5) => some ((k, v) :: fs, r5)
                | none => none
            | '\x7d' :: r4 => some ([(k, v)], r4)
            | _ => none
        | _ => none
    | _ => none

end

/-- Model of `JSON.parse(s)`: parse one value and require only whitespace
after it; `none` models the parse throwing. -/
def jsonParse (s : String) : Option Json :=
  let cs := s.toList
  match parseJsonVal (cs.length + 1) cs with
  | some (v, rest) => if (skipWs rest).isEmpty then some v else none
  | none => none

/-! ## The report builder's error path and failure policy -/

/-- An HTTP response as observed by `fetchJson` / `fetchCoverageDetails`:
the `ok` flag, the numeric status, and the body text (`none` models a
`response.text()` call that itself throws; `fetchJson` catches that and
falls back to the empty body). -/
structure HttpResponse where
  ok : Bool
  status : Nat
  bodyText : Option String := none
deriving Repr

/-- The `details` payload attached to an `ApiError`: JavaScript `null`, a
successfully parsed JSON body, or the raw body text when parsing failed. -/
inductive ErrorDetails where
  | null
  | json (j : Json)
  | raw (s : String)
deriving Repr

/-- `ApiError` from index: a message, an optional HTTP status code and
optional details. -/
structure ApiError where
  message : String
  statusCode : Option Nat := none
  details : Option ErrorDetails := none
deriving Repr

/-- The `details` value computed by `fetchJson` for a non-ok response:
`bodyText || null`, then — when the body is non-empty — a best-effort
`JSON.parse(bodyText)` falling back to the raw text on a parse failure. -/
def fetchJsonErrorDetails (bodyText : String) : ErrorDetails :=
  if bodyText.isEmpty then .null
  else
    match jsonParse bodyText with
    | some j => .json j
    | none => .raw bodyText

/-- The control flow of `fetchJson(url, headers, errorLabel)` on a given
response: a non-ok response throws
`ApiError(errorLabel + " API returned " + status, status, details)`;
the successfully parsed payload of an ok response is elided to `Unit`. -/
def fetchJson (response : HttpResponse) (errorLabel : String) : Except ApiError Unit :=
  if response.ok then .ok ()
  else
    .error
      { message := errorLabel ++ " API returned " ++ toString response.status
      , statusCode := some response.status
      , details := some (fetchJsonErrorDetails (response.bodyText.getD "")) }

/-- The JSON error document `{error: {message, statusCode, details}}`
emitted in JSON mode. -/
structure JsonErrorDoc where
  message : String
  statusCode : Option Nat
  details : ErrorDetails
deriving Repr

/-- `toJsonError` restricted to `ApiError` (the `Error` and non-`Error`
branches only change how the message is obtained): message, then
`statusCode ?? null` and `details ?? null`. -/
def toJsonError (e : ApiError) : JsonErrorDoc :=
  { message := e.message
  , statusCode := e.statusCode
  , details := e.details.getD .null }

/-- The outcome of each fetch a PR report run can perform, as produced by
`fetchJson` (payloads elided), plus the component-tree fetch made by
`fetchCoverageDetails`. -/
structure PrFetchOutcomes where
  qualityGate : Except ApiError Unit
  issues : Except ApiError Unit
  hotspots : Except ApiError Unit
  duplication : Except ApiError Unit
  coverage : Except ApiError Unit
  coverageDetail : Except ApiError Unit
  overall : Except ApiError Unit

/-- Result of a report run: `success` models reaching the end of the `try`
block, `aborted e` models the `catch` handing `e` to `handleError`, which
prints the error (JSON document or red message) and exits with status 1. -/
inductive RunOutcome where
  | success
  | aborted (e : ApiError)
deriving Repr

/-- Whether an `Except` is an error. -/
def Except.isError : Except ε α → Bool
  | .error _ => true
  | .ok _ => false

/-- Control flow of `runPrAnalysis`: quality gate, issues, hotspots,
duplication and coverage measures are fetched in order, each propagating its
failure to the surrounding `catch`; in text mode `fetchCoverageMetrics` then
calls `fetchCoverageDetails`, which CATCHES its own fetch failure and prints
a warning instead of rethrowing; in JSON mode the overall metrics are
fetched (propagating failure) and the aggregate is written. Returns the run
outcome paired with whether the coverage-detail warning was printed. -/
def runPrAnalysis (jsonMode : Bool) (f : PrFetchOutcomes) : RunOutcome × Bool :=
  match f.qualityGate with
  | .error e => (.aborted e, false)
  | .ok _ =>
  match f.issues with
  | .error e => (.aborted e, false)
  | .ok _ =>
  match f.hotspots with
  | .error e => (.aborted e, false)
  | .ok _ =>
  match f.duplication with
  | .error e => (.aborted e, false)
  | .ok _ =>
  match f.coverage with
  | .error e => (.aborted e, false)
  | .ok _ =>
    let warned := !jsonMode && (f.coverageDetail).isError
    if jsonMode then
      match f.overall with
      | .error e => (.aborted e, false)
      | .ok _ => (.success, warned)
    else (.success, warned)

section TestScenarios

/-- The sample component tree of the coverage-utils test: fileA with
uncovered 2, linesToCover 10, coverage 80; fileB with uncovered 0; fileC with
only uncovered 1. -/
def sampleResponse : ComponentTreeResponse :=
  { components := some
      [ { key := "example-project:src/fileA.ts"
          path := some "src/fileA.ts"
          measures := some
            [ { metric := "new_uncovered_lines", periods := some [⟨"2"⟩] }
            , { metric := "new_lines_to_cover", periods := some [⟨"10"⟩] }
            , { metric := "new_coverage", periods := some [⟨"80"⟩] } ] }
      , { key := "example-project:src/fileB.ts"
          measures := some
            [ { metric := "new_uncovered_lines", periods := some [⟨"0"⟩] }
            , { metric := "new_lines_to_cover", periods := some [⟨"5"⟩] }
            , { metric := "new_coverage", periods := some [⟨"100"⟩] } ] }
      , { key := "example-project:src/fileC.ts"
          measures := some
            [ { metric := "new_uncovered_lines", periods := some [⟨"1"⟩] } ] } ] }

example : jsStrToNumber "85.5" = some (85.5 : Rat) := by
  simp [jsStrToNumber, trimWhitespace, parseUnsignedDecimal, digitsToNat, digitVal]
  norm_num
example : jsStrToNumber "abc" = none := by
  simp [jsStrToNumber, trimWhitespace, parseUnsignedDecimal]
example : jsStrToNumber "" = some 0 := by
  simp [jsStrToNumber, trimWhitespace]
example : jsStrToNumber "2" = some 2 := by
  simp [jsStrToNumber, trimWhitespace, parseUnsignedDecimal, digitsToNat, digitVal]

example :
    coverageCandidates sampleResponse "example-project" =
      [ { path := "src/fileA.ts", uncovered := 2, linesToCover := some 10, coverage := some 80 }
      , { path := "src/fileC.ts", uncovered := 1, linesToCover := none, coverage := none } ] := by
  simp [coverageCandidates, sampleResponse, mkCoverageFileDetail, parseMeasureNumber,
    selectedRawValue, jsStringOr, jsReplaceFirst, listReplaceFirst, jsStrToNumber,
    trimWhitespace, parseUnsignedDecimal, digitsToNat, digitVal, List.find?]

/-- The ranked output the sample scenario is expected to produce. -/
def sampleDetails : List CoverageFileDetail :=
  [ { path := "src/fileA.ts", uncovered := 2, linesToCover := some 10, coverage := some 80 }
  , { path := "src/fileC.ts", uncovered := 1, linesToCover := none, coverage := none } ]

end TestScenarios

/-! ## Helper lemmas -/

theorem sampleResponse_candidates_eq :
    coverageCandidates sampleResponse "example-project" = sampleDetails := by
  simp [coverageCandidates, sampleResponse, sampleDetails, mkCoverageFileDetail,
    parseMeasureNumber, selectedRawValue, jsStringOr, jsReplaceFirst, listReplaceFirst,
    jsStrToNumber, trimWhitespace, parseUnsignedDecimal, digitsToNat, digitVal, List.find?]

theorem sampleResponse_ranked_eq :
    extractCoverageFileDetails sampleResponse "example-project" = sampleDetails := by
  rw [extractCoverageFileDetails, sampleResponse_candidates_eq]
  exact List.mergeSort_of_sorted (by simp [List.pairwise_cons, uncoveredDescLe, sampleDetails])

theorem mem_extractCoverageFileDetails {d : CoverageFileDetail}
    (response : ComponentTreeResponse) (projectKey : String) :
    d ∈ extractCoverageFileDetails response projectKey ↔
      d ∈ coverageCandidates response projectKey := by
  rw [extractCoverageFileDetails]
  exact List.mem_mergeSort

theorem mem_coverageCandidates {d : CoverageFileDetail}
    (response : ComponentTreeResponse) (projectKey : String) :
    d ∈ coverageCandidates response projectKey ↔
      ((∃ c ∈ response.components.getD [], mkCoverageFileDetail projectKey c = d)
        ∧ 0 < d.uncovered) := by
  simp only [coverageCandidates, List.mem_filter, List.mem_map, decide_eq_true_eq]

theorem uncoveredDescLe_trans (a b c : CoverageFileDetail) :
    uncoveredDescLe a b = true → uncoveredDescLe b c = true → uncoveredDescLe a c = true := by
  simp only [uncoveredDescLe, decide_eq_true_eq]
  exact fun h1 h2 => le_trans h2 h1

theorem uncoveredDescLe_total (a b : CoverageFileDetail) :
    (uncoveredDescLe a b || uncoveredDescLe b a) = true := by
  simp only [uncoveredDescLe, Bool.or_eq_true, decide_eq_true_eq]
  exact le_total _ _

/-! ## Claim theorems -/

/-- C3: on the sample component tree — fileA with uncovered 2, linesToCover
10, coverage 80; fileB with uncovered 0; fileC with only uncovered 1 — the
ranker returns exactly the two-element list fileA then fileC, with fileC's
optional fields absent. -/
theorem extractCoverageFileDetails_sample_scenario :
    extractCoverageFileDetails sampleResponse "example-project" =
      [ { path := "src/fileA.ts", uncovered := 2, linesToCover := some 10, coverage := some 80 }
      , { path := "src/fileC.ts", uncovered := 1, linesToCover := none, coverage := none } ] :=
  sampleResponse_ranked_eq

/-- C4: every entry of the ranker's output takes its uncovered count from the
measure extractor with absence defaulted to `0`, and its `linesToCover` and
`coverage` from the measure extractor without defaulting, so they stay
absent (`none`) when the measure is missing. -/
theorem extractCoverageFileDetails_field_extraction
    (response : ComponentTreeResponse) (projectKey : String) (d : CoverageFileDetail)
    (hd : d ∈ extractCoverageFileDetails response projectKey) :
    ∃ c ∈ response.components.getD [],
      d.uncovered = (parseMeasureNumber (some (c.measures.getD [])) "new_uncovered_lines").getD 0
      ∧ d.linesToCover = parseMeasureNumber (some (c.measures.getD [])) "new_lines_to_cover"
      ∧ d.coverage = parseMeasureNumber (some (c.measures.getD [])) "new_coverage" := by
  obtain ⟨⟨c, hc, hmk⟩, hpos⟩ := (mem_coverageCandidates response projectKey).mp
    ((mem_extractCoverageFileDetails response projectKey).mp hd)
  subst hmk
  exact ⟨c, hc, by simp [mkCoverageFileDetail]⟩

theorem extractCoverageFileDetails_field_extraction_witness :
    ∃ c ∈ sampleResponse.components.getD [],
      (CoverageFileDetail.mk "src/fileC.ts" 1 none none).uncovered
          = (parseMeasureNumber (some (c.measures.getD [])) "new_uncovered_lines").getD 0
      ∧ (CoverageFileDetail.mk "src/fileC.ts" 1 none none).linesToCover
          = parseMeasureNumber (some (c.measures.getD [])) "new_lines_to_cover"
      ∧ (CoverageFileDetail.mk "src/fileC.ts" 1 none none).coverage
          = parseMeasureNumber (some (c.measures.getD [])) "new_coverage" :=
  extractCoverageFileDetails_field_extraction sampleResponse "example-project" _
    (by rw [sampleResponse_ranked_eq]; simp [sampleDetails])

/-- C5: every entry of the ranker's output has a strictly positive uncovered
count (files with uncovered 0 never appear), the output is ordered by
descending uncovered count, and on the sample input with uncovered counts
[2, 0, 1] the output counts are exactly [2, 1]. -/
theorem extractCoverageFileDetails_filter_sort
    (response : ComponentTreeResponse) (projectKey : String) :
    (∀ d ∈ extractCoverageFileDetails response projectKey, 0 < d.uncovered)
    ∧ (extractCoverageFileDetails response projectKey).Pairwise
        (fun a b => b.uncovered ≤ a.uncovered)
    ∧ (extractCoverageFileDetails sampleResponse "example-project").map
        (fun d => d.uncovered) = [2, 1] := by
  refine ⟨?_, ?_, ?_⟩
  · intro d hd
    exact ((mem_coverageCandidates response projectKey).mp
      ((mem_extractCoverageFileDetails response projectKey).mp hd)).2
  · rw [extractCoverageFileDetails]
    exact (List.sorted_mergeSort uncoveredDescLe_trans uncoveredDescLe_total
      (coverageCandidates response projectKey)).imp
      (fun hab => by simpa [uncoveredDescLe] using hab)
  · rw [sampleResponse_ranked_eq]
    simp [sampleDetails]

theorem extractCoverageFileDetails_filter_sort_witness :
    (0 : Rat) < (CoverageFileDetail.mk "src/fileA.ts" 2 (some 10) (some 80)).uncovered :=
  (extractCoverageFileDetails_filter_sort sampleResponse "example-project").1 _
    (by rw [sampleResponse_ranked_eq]; simp [sampleDetails])

/-- C9: the ranker is a pure function — the same response and project key
always produce the same ordered list — and its ordering is stable under
re-application: sorting the output again changes nothing. -/
theorem extractCoverageFileDetails_pure_idempotent
    (response : ComponentTreeResponse) (projectKey : String) :
    extractCoverageFileDetails response projectKey = extractCoverageFileDetails response projectKey
    ∧ (extractCoverageFileDetails response projectKey).mergeSort uncoveredDescLe
        = extractCoverageFileDetails response projectKey := by
  refine ⟨rfl, ?_⟩
  rw [extractCoverageFileDetails]
  exact List.mergeSort_of_sorted
    (List.sorted_mergeSort uncoveredDescLe_trans uncoveredDescLe_total
      (coverageCandidates response projectKey))

/-- C6: the measure extractor is total — in the embedding it is a function,
so it never raises — and degrades malformed input to absence: an undefined
or empty measure list yields absence, a matching measure without any value
yields absence, a non-numeric selected value yields absence, and a decimal
numeral is parsed as the corresponding number. -/
theorem parseMeasureNumber_total_edge_cases (k : String) :
    parseMeasureNumber none k = none
    ∧ parseMeasureNumber (some []) k = none
    ∧ parseMeasureNumber (some [{ metric := k }]) k = none
    ∧ parseMeasureNumber (some [{ metric := k, value := some "abc" }]) k = none
    ∧ parseMeasureNumber (some [{ metric := k, value := some "85.5" }]) k = some (85.5 : Rat) := by
  refine ⟨rfl, rfl, ?_, ?_, ?_⟩
  · simp [parseMeasureNumber, List.find?, selectedRawValue]
  · simp [parseMeasureNumber, List.find?, selectedRawValue, jsStrToNumber, trimWhitespace,
      parseUnsignedDecimal]
  · simp [parseMeasureNumber, List.find?, selectedRawValue, jsStrToNumber, trimWhitespace,
      parseUnsignedDecimal, digitsToNat, digitVal]
    norm_num

/-- C10: when the selected raw value of the first matching measure is the
empty string, the extractor returns the number `0`, not absence: JavaScript
`Number("")` is `0`, so the empty string is not treated as a failed parse. -/
theorem parseMeasureNumber_empty_string_zero
    (ms : List Measure) (k : String) (m : Measure)
    (hfind : ms.find? (fun m' => m'.metric == k) = some m)
    (hsel : selectedRawValue m = some "") :
    parseMeasureNumber (some ms) k = some 0 := by
  simp [parseMeasureNumber, hfind, hsel, jsStrToNumber, trimWhitespace]

theorem parseMeasureNumber_empty_string_zero_witness :
    parseMeasureNumber (some [{ metric := "new_coverage", value := some "" }]) "new_coverage"
      = some 0 :=
  parseMeasureNumber_empty_string_zero _ "new_coverage" _ (by rfl) (by rfl)

/-- C1 counterexample: a single measure carries metric name `new_coverage`,
the parseable absolute value `"3"` and the unparseable first-period value
`"abc"`; the claim's characterization ("returns a value iff some measure
with the key has a parseable absolute value or a parseable first-period
value") then demands a numeric result, but the extractor selects the period
value, fails to parse it, and never falls back to the absolute value. -/
theorem parseMeasureNumber_not_any_parseable_counterexample :
    parseMeasureNumber
        (some [{ metric := "new_coverage", value := some "3", periods := some [⟨"abc"⟩] }])
        "new_coverage" = none
    ∧ (jsStrToNumber "3").isSome = true := by
  constructor
  · simp [parseMeasureNumber, List.find?, selectedRawValue, jsStrToNumber, trimWhitespace,
      parseUnsignedDecimal]
  · rfl

/-- C1 amended: the extractor returns a value iff the FIRST measure whose
metric equals the key selects a raw value — the first period value when a
non-empty period sequence exists, otherwise the absolute value — that
parses numerically; and whenever that first matching measure has a
non-empty period sequence, the result is exactly the parse of the first
period value, taking precedence over any absolute value. -/
theorem parseMeasureNumber_first_match_selected_spec (ms : List Measure) (k : String) :
    ((parseMeasureNumber (some ms) k).isSome = true ↔
      ∃ m, ms.find? (fun m' => m'.metric == k) = some m
        ∧ ∃ raw, selectedRawValue m = some raw ∧ (jsStrToNumber raw).isSome = true)
    ∧ (∀ m p ps, ms.find? (fun m' => m'.metric == k) = some m →
        m.periods = some (p :: ps) →
        parseMeasureNumber (some ms) k = jsStrToNumber p.value) := by
  constructor
  · cases hfind : ms.find? (fun m' => m'.metric == k) with
    | none => simp [parseMeasureNumber, hfind]
    | some m =>
      cases hsel : selectedRawValue m with
      | none => simp [parseMeasureNumber, hfind, hsel]
      | some raw => simp [parseMeasureNumber, hfind, hsel]
  · intro m p ps hfind hper
    simp [parseMeasureNumber, hfind, selectedRawValue, hper]

theorem parseMeasureNumber_first_match_selected_spec_witness :
    parseMeasureNumber
        (some [{ metric := "new_coverage", value := some "1", periods := some [⟨"85.5"⟩] }])
        "new_coverage" = jsStrToNumber "85.5" :=
  (parseMeasureNumber_first_match_selected_spec _ "new_coverage").2 _ ⟨"85.5"⟩ [] (by rfl) rfl

theorem listReplaceFirst_no_occurrence (pat repl : List Char) :
    ∀ (s : List Char), ¬ pat <:+: s → listReplaceFirst pat repl s = s := by
  intro s
  induction s with
  | nil =>
    intro h
    have hne : ¬ pat.isEmpty = true := by
      intro hempty
      rw [List.isEmpty_iff] at hempty
      subst hempty
      exact h List.nil_infix
    simp [listReplaceFirst, hne]
  | cons c cs ih =>
    intro h
    have hpre : ¬ pat.isPrefixOf (c :: cs) = true := by
      intro hT
      have hp := List.isPrefixOf_iff_prefix.mp hT
      exact h hp.isInfix
    simp only [listReplaceFirst, hpre, if_false, Bool.false_eq_true]
    rw [ih (fun hinf => h (List.infix_cons hinf))]

theorem listReplaceFirst_append (pat repl rest : List Char) :
    listReplaceFirst pat repl (pat ++ rest) = repl ++ rest := by
  cases h : pat ++ rest with
  | nil =>
    obtain ⟨hp, hr⟩ := List.append_eq_nil.mp h
    subst hp; subst hr
    simp [listReplaceFirst]
  | cons c cs =>
    have hpre : pat.isPrefixOf (pat ++ rest) = true :=
      List.isPrefixOf_iff_prefix.mpr (List.prefix_append pat rest)
    rw [h] at hpre
    simp only [listReplaceFirst, hpre, if_true]
    rw [← h, List.drop_left]

/-- C8 counterexample: the ranker's path derivation uses JavaScript
`String.replace`, which removes the first occurrence of
`projectKey + ":"` ANYWHERE in the key — a key that merely contains the
marker in the middle is altered, where the claim says a key that does not
begin with the marker stays unchanged; and an empty-string `path` field is
present yet falsy, so the key-derived path is used instead of it. -/
theorem coverage_path_replace_counterexample :
    ((extractCoverageFileDetails
        ⟨some [{ key := "dir:example-project:file.ts"
               , measures := some [{ metric := "new_uncovered_lines", value := some "1" }] }]⟩
        "example-project").map (fun d => d.path) = ["dir:file.ts"]
      ∧ ("dir:file.ts" : String) ≠ "dir:example-project:file.ts")
    ∧ ((extractCoverageFileDetails
        ⟨some [{ key := "example-project:src/x.ts", path := some ""
               , measures := some [{ metric := "new_uncovered_lines", value := some "1" }] }]⟩
        "example-project").map (fun d => d.path) = ["src/x.ts"]
      ∧ ("src/x.ts" : String) ≠ "") := by
  have hpath1 : jsReplaceFirst "dir:example-project:file.ts" "example-project:" ""
      = "dir:file.ts" := String.ext (by decide)
  have hpath2 : jsReplaceFirst "example-project:src/x.ts" "example-project:" ""
      = "src/x.ts" := String.ext (by decide)
  constructor
  · constructor
    · rw [extractCoverageFileDetails,
        show coverageCandidates
            ⟨some [{ key := "dir:example-project:file.ts"
                   , measures := some [{ metric := "new_uncovered_lines", value := some "1" }] }]⟩
            "example-project"
          = [{ path := "dir:file.ts", uncovered := 1 }] from by
          simp [coverageCandidates, mkCoverageFileDetail, parseMeasureNumber,
            selectedRawValue, jsStringOr, hpath1, jsStrToNumber, trimWhitespace,
            parseUnsignedDecimal, digitsToNat, digitVal, List.find?, String.isEmpty_iff]]
      simp
    · decide
  · constructor
    · rw [extractCoverageFileDetails,
        show coverageCandidates
            ⟨some [{ key := "example-project:src/x.ts", path := some ""
                   , measures := some [{ metric := "new_uncovered_lines", value := some "1" }] }]⟩
            "example-project"
          = [{ path := "src/x.ts", uncovered := 1 }] from by
          simp [coverageCandidates, mkCoverageFileDetail, parseMeasureNumber,
            selectedRawValue, jsStringOr, hpath2, jsStrToNumber, trimWhitespace,
            parseUnsignedDecimal, digitsToNat, digitVal, List.find?, String.isEmpty_iff]]
      simp
    · decide

/-- C8 amended: each ranked entry derives its path from the component's
`path` field when that field is present AND non-empty (JavaScript `||`
treats the empty string as falsy); otherwise the FIRST occurrence of
`projectKey + ":"` anywhere in the key is removed — in particular a key
containing no occurrence at all is left unchanged, and a key beginning
with the marker has exactly that front marker stripped. -/
theorem coverage_path_derivation (response : ComponentTreeResponse) (projectKey : String) :
    (∀ d ∈ extractCoverageFileDetails response projectKey,
      ∃ c ∈ response.components.getD [],
        d.path = jsStringOr c.path (jsReplaceFirst c.key (projectKey ++ ":") ""))
    ∧ (∀ s pat repl : String, ¬ (pat.toList <:+: s.toList) → jsReplaceFirst s pat repl = s)
    ∧ (∀ rest : String, jsReplaceFirst (projectKey ++ ":" ++ rest) (projectKey ++ ":") "" = rest) := by
  refine ⟨?_, ?_, ?_⟩
  · intro d hd
    obtain ⟨⟨c, hc, hmk⟩, hpos⟩ := (mem_coverageCandidates response projectKey).mp
      ((mem_extractCoverageFileDetails response projectKey).mp hd)
    subst hmk
    exact ⟨c, hc, by simp [mkCoverageFileDetail]⟩
  · intro s pat repl h
    apply String.ext
    exact listReplaceFirst_no_occurrence pat.toList repl.toList s.toList h
  · intro rest
    apply String.ext
    show listReplaceFirst (projectKey ++ ":").toList [] (projectKey ++ ":" ++ rest).toList
      = rest.data
    rw [show (projectKey ++ ":" ++ rest).toList
        = (projectKey ++ ":").toList ++ rest.toList from String.data_append _ _]
    rw [listReplaceFirst_append]
    rfl

theorem coverage_path_derivation_witness :
    jsReplaceFirst "plain.ts" "example-project:" "" = "plain.ts" :=
  (coverage_path_derivation ⟨none⟩ "example-project").2.1 "plain.ts" "example-project:" ""
    (by decide)

/-- C7: an upstream call answered with HTTP 404 and body
`{"errors":[{"msg":"not found"}]}` makes `fetchJson` throw the `ApiError`
whose JSON-mode rendering is exactly the error document with message
`<label> API returned 404`, the numeric status code 404, and the
JSON-parsed response body as details; and in JSON mode that error aborts
the report run carrying exactly this error. -/
theorem fetchJson_404_json_error_doc (errorLabel : String) :
    ∃ e : ApiError,
      fetchJson
          { ok := false, status := 404
          , bodyText := some "\x7b\"errors\":[\x7b\"msg\":\"not found\"\x7d]\x7d" } errorLabel
        = .error e
      ∧ toJsonError e =
          { message := errorLabel ++ " API returned 404"
          , statusCode := some 404
          , details := .json (.obj [("errors", .arr [.obj [("msg", .str "not found")]])]) }
      ∧ (runPrAnalysis true
          { qualityGate := fetchJson
              { ok := false, status := 404
              , bodyText := some "\x7b\"errors\":[\x7b\"msg\":\"not found\"\x7d]\x7d" } errorLabel
          , issues := .ok (), hotspots := .ok (), duplication := .ok (), coverage := .ok ()
          , coverageDetail := .ok (), overall := .ok () }).fst = .aborted e := by
  refine ⟨{ message := errorLabel ++ " API returned 404", statusCode := some 404
          , details := some (.json (.obj [("errors", .arr [.obj [("msg", .str "not found")]])])) },
    ?_, rfl, ?_⟩
  · rw [show fetchJson
        { ok := false, status := 404
        , bodyText := some "\x7b\"errors\":[\x7b\"msg\":\"not found\"\x7d]\x7d" } errorLabel
      = .error
          { message := errorLabel ++ " API returned " ++ toString (404 : Nat)
          , statusCode := some 404
          , details := some (fetchJsonErrorDetails
              "\x7b\"errors\":[\x7b\"msg\":\"not found\"\x7d]\x7d") } from rfl]
    rw [String.append_assoc]
    rfl
  · rw [show fetchJson
        { ok := false, status := 404
        , bodyText := some "\x7b\"errors\":[\x7b\"msg\":\"not found\"\x7d]\x7d" } errorLabel
      = .error
          { message := errorLabel ++ " API returned " ++ toString (404 : Nat)
          , statusCode := some 404
          , details := some (fetchJsonErrorDetails
              "\x7b\"errors\":[\x7b\"msg\":\"not found\"\x7d]\x7d") } from rfl]
    rw [String.append_assoc]
    rfl
